import Mathlib

/-!
Verification of the finger-ban gesture classifier and region redactor.

The definitions below embed the two source files of the repository:
the `FingerBanDetector` class of `main.py` and the demo classifier of
`setup_check.py`.  Landmark coordinates are modelled as rationals;
Python `int()` truncation toward zero is `truncQ`; numpy slice index
resolution, where a negative end index counts from the end of the axis,
is `sliceIdx`; the external `cv2.GaussianBlur` is an abstract,
shape-preserving, possibly failing operation of type `GaussFn`, and an
exception raised by it is modelled as the value `none`.
-/

/-- One hand landmark as delivered by the landmark provider: normalized
coordinates, `z` unused by the core. -/
structure Landmark where
  x : ℚ
  y : ℚ
  z : ℚ
deriving DecidableEq

/-- Verdict of the gesture classifier. -/
inductive GestureVerdict where
  | Normal
  | Flagged
deriving DecidableEq

/-- `FingerBanDetector.is_middle_finger_up` from `main.py`.  The source
indexes `landmarks[4], [3], [8], [6], [12], [10], [16], [14], [20], [18]`
inside a `try` block; an out-of-range access raises `IndexError`, which the
`except` clause turns into the result `False`.  The `thumb_folded` value is
computed by the source but does not enter the returned conjunction. -/
def is_middle_finger_up (landmarks : List Landmark) : Bool :=
  match landmarks[4]?, landmarks[3]?, landmarks[8]?, landmarks[6]?,
        landmarks[12]?, landmarks[10]?, landmarks[16]?, landmarks[14]?,
        landmarks[20]?, landmarks[18]? with
  | some thumb_tip, some thumb_ip, some index_tip, some index_pip,
    some middle_tip, some middle_pip, some ring_tip, some ring_pip,
    some pinky_tip, some pinky_pip =>
      let middle_extended := decide (middle_tip.y < middle_pip.y)
      let index_folded := decide (index_tip.y > index_pip.y)
      let ring_folded := decide (ring_tip.y > ring_pip.y)
      let pinky_folded := decide (pinky_tip.y > pinky_pip.y)
      let thumb_folded := decide (|thumb_tip.x - thumb_ip.x| < 5 / 100)
      middle_extended && index_folded && ring_folded && pinky_folded
  | _, _, _, _, _, _, _, _, _, _ => false

/-- The classifier contract of the spec: `process_frame` treats a `True`
result of `is_middle_finger_up` as the flagged gesture and anything else
as a normal hand. -/
def classify (landmarks : List Landmark) : GestureVerdict :=
  if is_middle_finger_up landmarks then GestureVerdict.Flagged else GestureVerdict.Normal

/-- `int(landmark_coordinate * axis_size)`, the projection into pixel
space performed by `blur_hand_region`.  Python `int()` truncates toward
zero; for `q = a/b` in lowest terms with `b > 0`, truncating `q * n`
toward zero is exactly the truncating division of `a * n` by `b`. -/
def pixelCoord (n : ℕ) (q : ℚ) : ℤ :=
  Int.tdiv (q.num * (n : ℤ)) (q.den : ℤ)

/-- Python `min(x_coords)` over the nonempty list of projected x
coordinates. -/
def minXCoord (w : ℕ) (p : Landmark) (ps : List Landmark) : ℤ :=
  (ps.map fun l => pixelCoord w l.x).foldl min (pixelCoord w p.x)

/-- Python `max(x_coords)`. -/
def maxXCoord (w : ℕ) (p : Landmark) (ps : List Landmark) : ℤ :=
  (ps.map fun l => pixelCoord w l.x).foldl max (pixelCoord w p.x)

/-- Python `min(y_coords)`. -/
def minYCoord (h : ℕ) (p : Landmark) (ps : List Landmark) : ℤ :=
  (ps.map fun l => pixelCoord h l.y).foldl min (pixelCoord h p.y)

/-- Python `max(y_coords)`. -/
def maxYCoord (h : ℕ) (p : Landmark) (ps : List Landmark) : ℤ :=
  (ps.map fun l => pixelCoord h l.y).foldl max (pixelCoord h p.y)

/-- The hard-coded 50 pixel box padding of `blur_hand_region`. -/
def padding : ℤ := 50

/-- `x_min = max(0, min(x_coords) - 50)` from `blur_hand_region`. -/
def boxXMin (w : ℕ) (p : Landmark) (ps : List Landmark) : ℤ :=
  max 0 (minXCoord w p ps - padding)

/-- `x_max = min(w, max(x_coords) + 50)` from `blur_hand_region`. -/
def boxXMax (w : ℕ) (p : Landmark) (ps : List Landmark) : ℤ :=
  min (w : ℤ) (maxXCoord w p ps + padding)

/-- `y_min = max(0, min(y_coords) - 50)` from `blur_hand_region`. -/
def boxYMin (h : ℕ) (p : Landmark) (ps : List Landmark) : ℤ :=
  max 0 (minYCoord h p ps - padding)

/-- `y_max = min(h, max(y_coords) + 50)` from `blur_hand_region`. -/
def boxYMax (h : ℕ) (p : Landmark) (ps : List Landmark) : ℤ :=
  min (h : ℤ) (maxYCoord h p ps + padding)

/-- Resolution of a Python slice index on an axis of size `n`: a
nonnegative index is clamped to at most `n`, a negative index counts from
the end of the axis and is clamped to at least `0`. -/
def sliceIdx (n : ℕ) (i : ℤ) : ℕ :=
  if i < 0 then ((n : ℤ) + i).toNat else min i.toNat n

/-- A video frame: `image.shape` is `(height, width, channels)` and
`pixel r c ch` is the value stored at row `r`, column `c`, channel `ch`. -/
structure Frame where
  height : ℕ
  width : ℕ
  channels : ℕ
  pixel : ℕ → ℕ → ℕ → ℕ

/-- Abstract model of `cv2.GaussianBlur`: given the kernel size and a
region (its row count, column count, channel count and contents) it either
produces new contents for a region of the same shape, or fails
(`none` models a raised exception, as happens for an even kernel size). -/
abbrev GaussFn : Type :=
  ℤ → ℕ → ℕ → ℕ → (ℕ → ℕ → ℕ → ℕ) → Option (ℕ → ℕ → ℕ → ℕ)

/-- First row of the numpy slice `image[y_min:y_max, x_min:x_max]`. -/
def rowStart (image : Frame) (p : Landmark) (ps : List Landmark) : ℕ :=
  sliceIdx image.height (boxYMin image.height p ps)

/-- End row (exclusive) of the numpy slice `image[y_min:y_max, x_min:x_max]`. -/
def rowEnd (image : Frame) (p : Landmark) (ps : List Landmark) : ℕ :=
  sliceIdx image.height (boxYMax image.height p ps)

/-- First column of the numpy slice `image[y_min:y_max, x_min:x_max]`. -/
def colStart (image : Frame) (p : Landmark) (ps : List Landmark) : ℕ :=
  sliceIdx image.width (boxXMin image.width p ps)

/-- End column (exclusive) of the numpy slice `image[y_min:y_max, x_min:x_max]`. -/
def colEnd (image : Frame) (p : Landmark) (ps : List Landmark) : ℕ :=
  sliceIdx image.width (boxXMax image.width p ps)

/-- `FingerBanDetector.blur_hand_region` from `main.py`.  On an empty
landmark list, Python `min()` raises and the `except` clause returns the
frame unchanged.  Otherwise the padded, clamped box is computed, the
region `image[y_min:y_max, x_min:x_max]` is extracted, and when its
`size` (rows times columns times channels) is positive it is replaced by
the blurred contents; a failure of the blur operation is caught and the
unmodified frame is returned. -/
def blur_hand_region (gauss : GaussFn) (image : Frame) (landmarks : List Landmark)
    (blur_intensity : ℤ) : Frame :=
  match landmarks with
  | [] => image
  | p :: ps =>
    if 0 < (rowEnd image p ps - rowStart image p ps) *
        (colEnd image p ps - colStart image p ps) * image.channels then
      match gauss blur_intensity (rowEnd image p ps - rowStart image p ps)
          (colEnd image p ps - colStart image p ps) image.channels
          (fun r c ch => image.pixel (rowStart image p ps + r) (colStart image p ps + c) ch) with
      | some blurred =>
          { image with pixel := fun r c ch =>
              if rowStart image p ps ≤ r ∧ r < rowEnd image p ps ∧
                  colStart image p ps ≤ c ∧ c < colEnd image p ps then
                blurred (r - rowStart image p ps) (c - colStart image p ps) ch
              else image.pixel r c ch }
      | none => image
    else image

/-- The per-frame aggregation of `FingerBanDetector.process_frame`: the
flag `middle_finger_detected` starts `False` and is set for every hand
whose landmark set is classified as the flagged gesture. -/
def processFrameDetected (hands : List (List Landmark)) : Bool :=
  hands.foldl (fun detected hand => detected || is_middle_finger_up hand) false

/-- The two external events that touch the session counter of `main`:
a processed frame (with the hands the landmark provider returned for it)
and the reset keypress. -/
inductive SessionEvent where
  | frame (hands : List (List Landmark))
  | reset

/-- The counter update of the `main` loop: `detection_count += 1` when the
frame reported a detection, `detection_count = 0` on the reset key. -/
def sessionStep (count : ℕ) : SessionEvent → ℕ
  | SessionEvent.frame hands => if processFrameDetected hands then count + 1 else count
  | SessionEvent.reset => 0

/-- The session counter after a sequence of events. -/
def runSession (count : ℕ) (events : List SessionEvent) : ℕ :=
  events.foldl sessionStep count

/-- A landmark that only carries a y coordinate, for classifier inputs. -/
def lmY (y : ℚ) : Landmark := ⟨0, y, 0⟩

/-- A 22 point landmark set realizing the flagged-gesture comparisons at
the usual indices. -/
def exC2 : List Landmark :=
  [lmY 1, lmY 1, lmY 1, lmY 1, lmY 1, lmY 1, lmY 1, lmY 1, lmY 2, lmY 1,
   lmY 1, lmY 1, lmY 0, lmY 1, lmY 1, lmY 1, lmY 2, lmY 1, lmY 1, lmY 1,
   lmY 2, lmY 1]

/-- A 21 point landmark set with the middle finger extended, ring and
pinky folded, and the index tip y exactly equal to the index PIP y. -/
def exC3 : List Landmark :=
  [lmY 0, lmY 0, lmY 0, lmY 0, lmY 0, lmY 0, lmY 1, lmY 0, lmY 1, lmY 0,
   lmY 2, lmY 0, lmY 1, lmY 0, lmY 1, lmY 0, lmY 2, lmY 0, lmY 1, lmY 0,
   lmY 2]

/-- A landmark at the far corner of the frame. -/
def edgeLm : Landmark := ⟨1, 1, 0⟩

/-- A landmark well to the left of the frame: on a width-100 frame its
projected pixel x is -100, making the clamped `x_max` equal -50. -/
def negLm : Landmark := ⟨-1, 1, 0⟩

/-- A 100 by 100 single-channel frame of zeros. -/
def cimg : Frame := ⟨100, 100, 1, fun _ _ _ => 0⟩

/-- A blur operation that always succeeds and writes the value 7. -/
def cgauss7 : GaussFn := fun _ _ _ _ _ => some fun _ _ _ => 7

/-- A blur operation that always fails, as `cv2.GaussianBlur` does for an
even kernel size. -/
def gaussFail : GaussFn := fun _ _ _ _ _ => none

/-- A 10 by 10 single-channel frame of threes. -/
def wimg : Frame := ⟨10, 10, 1, fun _ _ _ => 3⟩

/-- A landmark at the origin corner of the frame. -/
def wpt : Landmark := ⟨0, 0, 0⟩

/-- A zero-extent frame. -/
def zimg : Frame := ⟨0, 0, 3, fun _ _ _ => 5⟩

lemma imfu_explicit (p0 p1 p2 p3 p4 p5 p6 p7 p8 p9 p10 p11 p12 p13 p14 p15
    p16 p17 p18 p19 p20 : Landmark) :
    is_middle_finger_up [p0, p1, p2, p3, p4, p5, p6, p7, p8, p9, p10, p11,
      p12, p13, p14, p15, p16, p17, p18, p19, p20] =
      (decide (p12.y < p10.y) && decide (p8.y > p6.y) &&
       decide (p16.y > p14.y) && decide (p20.y > p18.y)) := rfl

/-- Claim C1: on a landmark set of exactly 21 points, `classify` returns
`Flagged` iff the middle finger is extended (tip 12 strictly above PIP 10)
and index, ring and pinky are folded (tips 8, 16, 20 strictly below PIPs
6, 14, 18); replacing the thumb landmarks 1 to 4 never changes the
verdict. -/
theorem c1_flagged_iff_thumb_irrelevant
    (p0 p1 p2 p3 p4 p5 p6 p7 p8 p9 p10 p11 p12 p13 p14 p15 p16 p17 p18 p19
     p20 q1 q2 q3 q4 : Landmark) :
    (classify [p0, p1, p2, p3, p4, p5, p6, p7, p8, p9, p10, p11, p12, p13,
        p14, p15, p16, p17, p18, p19, p20] = GestureVerdict.Flagged ↔
      (p12.y < p10.y ∧ p8.y > p6.y ∧ p16.y > p14.y ∧ p20.y > p18.y)) ∧
    classify [p0, q1, q2, q3, q4, p5, p6, p7, p8, p9, p10, p11, p12, p13,
        p14, p15, p16, p17, p18, p19, p20] =
      classify [p0, p1, p2, p3, p4, p5, p6, p7, p8, p9, p10, p11, p12, p13,
        p14, p15, p16, p17, p18, p19, p20] := by
  constructor
  · unfold classify
    rw [imfu_explicit]
    split
    · rename_i hcond
      simp only [Bool.and_eq_true, decide_eq_true_eq] at hcond
      exact iff_of_true rfl ⟨hcond.1.1.1, hcond.1.1.2, hcond.1.2, hcond.2⟩
    · rename_i hcond
      simp only [Bool.and_eq_true, decide_eq_true_eq] at hcond
      exact iff_of_false (by decide)
        fun hP => hcond ⟨⟨⟨hP.1, hP.2.1⟩, hP.2.2.1⟩, hP.2.2.2⟩
  · rfl

/-- Claim C2, counterexample: a 22 point landmark set realizing the
gesture comparisons is classified `Flagged`, not `Normal`, because the
source only fails (and falls back to `False`) when an index access is out
of range, which a longer list never is. -/
theorem c2_counterexample :
    exC2.length = 22 ∧ classify exC2 = GestureVerdict.Flagged := by
  decide

/-- Claim C2, amended: a landmark set with fewer than 21 points always
classifies as `Normal` (the out-of-range access raises, the handler
returns `False`); a set with more than 21 points also raises no error,
but is classified by the same tip/PIP comparisons and so need not be
`Normal`. -/
theorem c2_short_input_normal (l : List Landmark) (h : l.length < 21) :
    classify l = GestureVerdict.Normal := by
  have h20 : l[20]? = none := by
    rw [List.getElem?_eq_none_iff]
    omega
  have hf : is_middle_finger_up l = false := by
    unfold is_middle_finger_up
    split
    · simp_all
    · rfl
  unfold classify
  rw [hf]
  simp

/-- Claim C2, witness for the amended statement: the empty landmark set. -/
theorem c2_witness :
    ([] : List Landmark).length < 21 ∧ classify [] = GestureVerdict.Normal :=
  ⟨by decide, c2_short_input_normal [] (by decide)⟩

/-- Claim C3, counterexample: a 21 point set with the middle finger
extended (tip y 1 below PIP y 2 in value, so extended), ring and pinky
strictly folded, and the index tip y exactly equal to the index PIP y is
classified `Normal`, not `Flagged`: the strict `>` comparison makes an
exact tie count as not folded. -/
theorem c3_counterexample :
    exC3.length = 21 ∧
    exC3[12]?.map Landmark.y = some 1 ∧ exC3[10]?.map Landmark.y = some 2 ∧
    exC3[8]?.map Landmark.y = some 1 ∧ exC3[6]?.map Landmark.y = some 1 ∧
    exC3[16]?.map Landmark.y = some 2 ∧ exC3[14]?.map Landmark.y = some 1 ∧
    exC3[20]?.map Landmark.y = some 2 ∧ exC3[18]?.map Landmark.y = some 1 ∧
    classify exC3 = GestureVerdict.Normal := by
  decide

/-- Claim C3, amended: equality of a compared tip y with its PIP y is
treated as that finger being NOT folded; in the scenario of the claim
(middle extended, ring and pinky strictly folded, index tip y equal to
index PIP y) `classify` returns `Normal`. -/
theorem c3_tie_means_not_folded
    (p0 p1 p2 p3 p4 p5 p6 p7 p8 p9 p10 p11 p12 p13 p14 p15 p16 p17 p18 p19
     p20 : Landmark)
    (hm : p12.y < p10.y) (hr : p16.y > p14.y) (hp : p20.y > p18.y)
    (hi : p8.y = p6.y) :
    classify [p0, p1, p2, p3, p4, p5, p6, p7, p8, p9, p10, p11, p12, p13,
      p14, p15, p16, p17, p18, p19, p20] = GestureVerdict.Normal := by
  unfold classify
  rw [imfu_explicit]
  exact if_neg (by simp [hi])

/-- Claim C3, witness for the amended statement. -/
theorem c3_witness :
    (lmY 1).y < (lmY 2).y ∧ (lmY 2).y > (lmY 1).y ∧ (lmY 1).y = (lmY 1).y ∧
    classify exC3 = GestureVerdict.Normal :=
  ⟨by decide, by decide, rfl,
   c3_tie_means_not_folded (lmY 0) (lmY 0) (lmY 0) (lmY 0) (lmY 0) (lmY 0)
     (lmY 1) (lmY 0) (lmY 1) (lmY 0) (lmY 2) (lmY 0) (lmY 1) (lmY 0) (lmY 1)
     (lmY 0) (lmY 2) (lmY 0) (lmY 1) (lmY 0) (lmY 2)
     (by decide) (by decide) (by decide) rfl⟩

/-- Claim C4: an exact y tie in any one of the four compared tip/PIP
pairs (12/10, 8/6, 16/14, 20/18) forces the verdict `Normal`, because the
strict comparisons make the tied finger neither extended nor folded. -/
theorem c4_tie_favors_normal
    (p0 p1 p2 p3 p4 p5 p6 p7 p8 p9 p10 p11 p12 p13 p14 p15 p16 p17 p18 p19
     p20 : Landmark)
    (h : p12.y = p10.y ∨ p8.y = p6.y ∨ p16.y = p14.y ∨ p20.y = p18.y) :
    classify [p0, p1, p2, p3, p4, p5, p6, p7, p8, p9, p10, p11, p12, p13,
      p14, p15, p16, p17, p18, p19, p20] = GestureVerdict.Normal := by
  unfold classify
  rw [imfu_explicit]
  rcases h with h | h | h | h
  · exact if_neg (by simp [h])
  · exact if_neg (by simp [h])
  · exact if_neg (by simp [h])
  · exact if_neg (by simp [h])

/-- Claim C4, witness: a hand with every landmark at the same height has
a tied middle pair and classifies as `Normal`. -/
theorem c4_witness :
    ((lmY 1).y = (lmY 1).y ∨ (lmY 1).y = (lmY 1).y ∨ (lmY 1).y = (lmY 1).y ∨
      (lmY 1).y = (lmY 1).y) ∧
    classify [lmY 1, lmY 1, lmY 1, lmY 1, lmY 1, lmY 1, lmY 1, lmY 1, lmY 1,
      lmY 1, lmY 1, lmY 1, lmY 1, lmY 1, lmY 1, lmY 1, lmY 1, lmY 1, lmY 1,
      lmY 1, lmY 1] = GestureVerdict.Normal :=
  ⟨Or.inl rfl,
   c4_tie_favors_normal (lmY 1) (lmY 1) (lmY 1) (lmY 1) (lmY 1) (lmY 1)
     (lmY 1) (lmY 1) (lmY 1) (lmY 1) (lmY 1) (lmY 1) (lmY 1) (lmY 1) (lmY 1)
     (lmY 1) (lmY 1) (lmY 1) (lmY 1) (lmY 1) (lmY 1) (Or.inl rfl)⟩

/-- Claim C5: every 21 point set realizing the literal scenario A
y coordinates is classified `Flagged`, and every 21 point set realizing
the literal scenario B y coordinates is classified `Normal`. -/
theorem c5_literal_scenarios :
    (∀ p0 p1 p2 p3 p4 p5 p6 p7 p8 p9 p10 p11 p12 p13 p14 p15 p16 p17 p18
       p19 p20 : Landmark,
      p12.y = 15/100 → p10.y = 25/100 → p8.y = 58/100 → p6.y = 50/100 →
      p16.y = 58/100 → p14.y = 50/100 → p20.y = 60/100 → p18.y = 53/100 →
      classify [p0, p1, p2, p3, p4, p5, p6, p7, p8, p9, p10, p11, p12, p13,
        p14, p15, p16, p17, p18, p19, p20] = GestureVerdict.Flagged) ∧
    (∀ p0 p1 p2 p3 p4 p5 p6 p7 p8 p9 p10 p11 p12 p13 p14 p15 p16 p17 p18
       p19 p20 : Landmark,
      p12.y = 35/100 → p10.y = 45/100 → p8.y = 35/100 → p6.y = 45/100 →
      classify [p0, p1, p2, p3, p4, p5, p6, p7, p8, p9, p10, p11, p12, p13,
        p14, p15, p16, p17, p18, p19, p20] = GestureVerdict.Normal) := by
  constructor
  · intro p0 p1 p2 p3 p4 p5 p6 p7 p8 p9 p10 p11 p12 p13 p14 p15 p16 p17 p18
      p19 p20 h12 h10 h8 h6 h16 h14 h20 h18
    unfold classify
    rw [imfu_explicit, h12, h10, h8, h6, h16, h14, h20, h18]
    apply if_pos
    simp only [Bool.and_eq_true, decide_eq_true_eq]
    refine ⟨⟨⟨?_, ?_⟩, ?_⟩, ?_⟩ <;> norm_num
  · intro p0 p1 p2 p3 p4 p5 p6 p7 p8 p9 p10 p11 p12 p13 p14 p15 p16 p17 p18
      p19 p20 h12 h10 h8 h6
    unfold classify
    rw [imfu_explicit, h12, h10, h8, h6]
    apply if_neg
    simp only [Bool.and_eq_true, decide_eq_true_eq]
    intro hc
    have hnot : ¬((35 : ℚ)/100 > 45/100) := by norm_num
    exact hnot hc.1.1.2

/-- Claim C5, witness: concrete landmark sets realizing scenario A and
scenario B. -/
theorem c5_witness :
    classify [lmY 0, lmY 0, lmY 0, lmY 0, lmY 0, lmY 0, lmY (50/100), lmY 0,
      lmY (58/100), lmY 0, lmY (25/100), lmY 0, lmY (15/100), lmY 0,
      lmY (50/100), lmY 0, lmY (58/100), lmY 0, lmY (53/100), lmY 0,
      lmY (60/100)] = GestureVerdict.Flagged ∧
    classify [lmY 0, lmY 0, lmY 0, lmY 0, lmY 0, lmY 0, lmY (45/100), lmY 0,
      lmY (35/100), lmY 0, lmY (45/100), lmY 0, lmY (35/100), lmY 0, lmY 0,
      lmY 0, lmY 0, lmY 0, lmY 0, lmY 0, lmY 0] = GestureVerdict.Normal :=
  ⟨c5_literal_scenarios.1 (lmY 0) (lmY 0) (lmY 0) (lmY 0) (lmY 0) (lmY 0)
     (lmY (50/100)) (lmY 0) (lmY (58/100)) (lmY 0) (lmY (25/100)) (lmY 0)
     (lmY (15/100)) (lmY 0) (lmY (50/100)) (lmY 0) (lmY (58/100)) (lmY 0)
     (lmY (53/100)) (lmY 0) (lmY (60/100))
     rfl rfl rfl rfl rfl rfl rfl rfl,
   c5_literal_scenarios.2 (lmY 0) (lmY 0) (lmY 0) (lmY 0) (lmY 0) (lmY 0)
     (lmY (45/100)) (lmY 0) (lmY (35/100)) (lmY 0) (lmY (45/100)) (lmY 0)
     (lmY (35/100)) (lmY 0) (lmY 0) (lmY 0) (lmY 0) (lmY 0) (lmY 0) (lmY 0)
     (lmY 0) rfl rfl rfl rfl⟩

/-- Claim C6, counterexample: for a frame of width and height 100 and
landmarks at the far corner, the clamped upper bounds equal the frame
extent, so `x_max < w` and `y_max < h` fail. -/
theorem c6_counterexample :
    boxXMax 100 edgeLm (List.replicate 20 edgeLm) = 100 ∧
    ¬ boxXMax 100 edgeLm (List.replicate 20 edgeLm) < (100 : ℤ) ∧
    boxYMax 100 edgeLm (List.replicate 20 edgeLm) = 100 := by
  decide

/-- Claim C6, amended: the padded, clamped bounds satisfy `0 ≤ x_min`,
`x_max ≤ w`, `0 ≤ y_min`, `y_max ≤ h`; since the box denotes the half-open
pixel region `[x_min, x_max) x [y_min, y_max)`, that region is a subset of
`[0, w) x [0, h)`. -/
theorem c6_box_bounds (w h : ℕ) (p : Landmark) (ps : List Landmark) :
    0 ≤ boxXMin w p ps ∧ boxXMax w p ps ≤ (w : ℤ) ∧
    0 ≤ boxYMin h p ps ∧ boxYMax h p ps ≤ (h : ℤ) :=
  ⟨le_max_left 0 _, min_le_left _ _, le_max_left 0 _, min_le_left _ _⟩

lemma mem_of_slice (n : ℕ) (lo hi : ℤ) (hlo : 0 ≤ lo) (hhi : 0 ≤ hi) (i : ℕ)
    (h1 : sliceIdx n lo ≤ i) (h2 : i < sliceIdx n hi) :
    lo ≤ (i : ℤ) ∧ (i : ℤ) < hi := by
  simp only [sliceIdx, if_neg (not_lt.2 hlo), if_neg (not_lt.2 hhi)] at h1 h2
  omega

/-- Claim C7, counterexample: landmarks far to the left of a 100 by 100
frame give `x_min = 0` and a negative `x_max`; the box is then empty, so
every pixel is outside it, yet the numpy slice resolves the negative end
index from the right edge and the blur rewrites pixel (50,0). -/
theorem c7_counterexample :
    boxXMax 100 negLm (List.replicate 20 negLm) ≤ 0 ∧
    boxXMin 100 negLm (List.replicate 20 negLm) = 0 ∧
    (blur_hand_region cgauss7 cimg (negLm :: List.replicate 20 negLm)
      51).pixel 50 0 0 = 7 ∧
    cimg.pixel 50 0 0 = 0 := by
  decide

lemma blur_dims (gauss : GaussFn) (image : Frame) (landmarks : List Landmark)
    (k : ℤ) :
    (blur_hand_region gauss image landmarks k).height = image.height ∧
    (blur_hand_region gauss image landmarks k).width = image.width ∧
    (blur_hand_region gauss image landmarks k).channels = image.channels := by
  match landmarks with
  | [] => exact ⟨rfl, rfl, rfl⟩
  | p :: ps =>
    simp only [blur_hand_region]
    split
    · split
      · exact ⟨rfl, rfl, rfl⟩
      · exact ⟨rfl, rfl, rfl⟩
    · exact ⟨rfl, rfl, rfl⟩

/-- Claim C7, amended: the redacted frame always keeps the width, height
and channel count of the input, for every landmark set (the empty one
included) and every blur outcome; and whenever the landmark set is
nonempty and the clamped upper bounds `x_max` and `y_max` are nonnegative
(in particular for all landmarks with nonnegative coordinates), every
pixel outside the padded, clamped box is unchanged. -/
theorem c7_outside_box_unchanged (gauss : GaussFn) (image : Frame)
    (landmarks : List Landmark) (k : ℤ) (r c ch : ℕ) :
    (blur_hand_region gauss image landmarks k).height = image.height ∧
    (blur_hand_region gauss image landmarks k).width = image.width ∧
    (blur_hand_region gauss image landmarks k).channels = image.channels ∧
    (∀ p ps, landmarks = p :: ps →
      0 ≤ boxXMax image.width p ps → 0 ≤ boxYMax image.height p ps →
      ¬(boxYMin image.height p ps ≤ (r : ℤ) ∧
          (r : ℤ) < boxYMax image.height p ps ∧
          boxXMin image.width p ps ≤ (c : ℤ) ∧
          (c : ℤ) < boxXMax image.width p ps) →
      (blur_hand_region gauss image landmarks k).pixel r c ch =
        image.pixel r c ch) := by
  refine ⟨(blur_dims gauss image landmarks k).1,
    (blur_dims gauss image landmarks k).2.1,
    (blur_dims gauss image landmarks k).2.2, ?_⟩
  intro p ps hl hx hy hout
  subst hl
  simp only [blur_hand_region]
  split
  · split
    · refine if_neg fun hin => hout ?_
      obtain ⟨h1, h2, h3, h4⟩ := hin
      have hrow := mem_of_slice image.height (boxYMin image.height p ps)
        (boxYMax image.height p ps) (le_max_left 0 _) hy r h1 h2
      have hcol := mem_of_slice image.width (boxXMin image.width p ps)
        (boxXMax image.width p ps) (le_max_left 0 _) hx c h3 h4
      exact ⟨hrow.1, hrow.2, hcol.1, hcol.2⟩
    · rfl
  · rfl

/-- Claim C7, witness: for a corner landmark on a 10 by 10 frame, the
dimensions are kept and a pixel below the frame, outside the box, is
untouched. -/
theorem c7_witness :
    (blur_hand_region cgauss7 wimg (wpt :: []) 51).height = wimg.height ∧
    (blur_hand_region cgauss7 wimg (wpt :: []) 51).width = wimg.width ∧
    (blur_hand_region cgauss7 wimg (wpt :: []) 51).channels = wimg.channels ∧
    (blur_hand_region cgauss7 wimg (wpt :: []) 51).pixel 12 0 0 =
      wimg.pixel 12 0 0 :=
  ⟨(c7_outside_box_unchanged cgauss7 wimg (wpt :: []) 51 12 0 0).1,
   (c7_outside_box_unchanged cgauss7 wimg (wpt :: []) 51 12 0 0).2.1,
   (c7_outside_box_unchanged cgauss7 wimg (wpt :: []) 51 12 0 0).2.2.1,
   (c7_outside_box_unchanged cgauss7 wimg (wpt :: []) 51 12 0 0).2.2.2 wpt []
     rfl (by decide) (by decide) (by decide)⟩

lemma sliceIdx_mono (n : ℕ) {a b : ℤ} (h0 : 0 ≤ a) (h1 : 0 ≤ b)
    (hab : a ≤ b) : sliceIdx n a ≤ sliceIdx n b := by
  simp only [sliceIdx, if_neg (not_lt.2 h0), if_neg (not_lt.2 h1)]
  omega

/-- Claim C8, counterexample: the same far-left landmarks give an inverted
box (`x_max = -50 < 0 = x_min`, hence zero area), yet the redactor does
not skip: the negative slice end wraps around and pixel (60,10) is
rewritten. -/
theorem c8_counterexample :
    boxXMin 100 negLm (List.replicate 20 negLm) = 0 ∧
    boxXMax 100 negLm (List.replicate 20 negLm) = -50 ∧
    (blur_hand_region cgauss7 cimg (negLm :: List.replicate 20 negLm)
      51).pixel 60 10 0 = 7 ∧
    cimg.pixel 60 10 0 = 0 := by
  decide

/-- Claim C8, amended: whenever the clamped upper bounds are nonnegative
and the box has zero area (`x_max ≤ x_min` or `y_max ≤ y_min`, as happens
for a zero-extent frame or when clamping inverts the bounds at the far
edge), the redactor skips the blur and returns the frame unchanged. -/
theorem c8_zero_area_skips (gauss : GaussFn) (image : Frame) (p : Landmark)
    (ps : List Landmark) (k : ℤ)
    (hx : 0 ≤ boxXMax image.width p ps) (hy : 0 ≤ boxYMax image.height p ps)
    (hz : boxXMax image.width p ps ≤ boxXMin image.width p ps ∨
      boxYMax image.height p ps ≤ boxYMin image.height p ps) :
    blur_hand_region gauss image (p :: ps) k = image := by
  have h0 : (rowEnd image p ps - rowStart image p ps) *
      (colEnd image p ps - colStart image p ps) * image.channels = 0 := by
    rcases hz with hz | hz
    · have hce : colEnd image p ps ≤ colStart image p ps :=
        sliceIdx_mono image.width hx (le_max_left 0 _) hz
      have : colEnd image p ps - colStart image p ps = 0 :=
        Nat.sub_eq_zero_of_le hce
      rw [this, Nat.mul_zero, Nat.zero_mul]
    · have hre : rowEnd image p ps ≤ rowStart image p ps :=
        sliceIdx_mono image.height hy (le_max_left 0 _) hz
      have : rowEnd image p ps - rowStart image p ps = 0 :=
        Nat.sub_eq_zero_of_le hre
      rw [this, Nat.zero_mul, Nat.zero_mul]
  simp only [blur_hand_region, h0]
  simp

/-- Claim C8, witness: a zero-extent frame is returned unchanged. -/
theorem c8_witness :
    (0 ≤ boxXMax zimg.width wpt [] ∧ 0 ≤ boxYMax zimg.height wpt [] ∧
      boxXMax zimg.width wpt [] ≤ boxXMin zimg.width wpt []) ∧
    blur_hand_region cgauss7 zimg (wpt :: []) 51 = zimg :=
  ⟨⟨by decide, by decide, by decide⟩,
   c8_zero_area_skips cgauss7 zimg wpt [] 51 (by decide) (by decide)
     (Or.inl (by decide))⟩

lemma foldl_or_eq_any (hands : List (List Landmark)) (b : Bool) :
    hands.foldl (fun detected hand => detected || is_middle_finger_up hand) b =
      (b || hands.any is_middle_finger_up) := by
  induction hands generalizing b with
  | nil => simp
  | cons h t ih => simp [List.foldl_cons, ih, Bool.or_assoc]

/-- Claim C9: appending a frame event to any event history increases the
session counter by exactly 1 if at least one hand of that frame is the
flagged gesture (however many hands are flagged) and by 0 otherwise, and
appending a reset event makes the counter exactly 0 regardless of its
prior value; the step function changes the counter in no other way. -/
theorem c9_session_counter (count : ℕ) (events : List SessionEvent)
    (hands : List (List Landmark)) :
    runSession count (events ++ [SessionEvent.frame hands]) =
      (if hands.any is_middle_finger_up then runSession count events + 1
       else runSession count events) ∧
    (hands.any is_middle_finger_up = true ↔
      ∃ hand ∈ hands, is_middle_finger_up hand = true) ∧
    runSession count (events ++ [SessionEvent.reset]) = 0 := by
  refine ⟨?_, List.any_eq_true, ?_⟩
  · have hpd : processFrameDetected hands = hands.any is_middle_finger_up := by
      simpa using foldl_or_eq_any hands false
    simp only [runSession, List.foldl_append, List.foldl_cons, List.foldl_nil,
      sessionStep, hpd]
  · simp [runSession, List.foldl_append, sessionStep]

/-- Claim C10: if the blur operation fails for kernel size `k` on every
region (as `cv2.GaussianBlur` does for an even or non-positive kernel),
the redactor raises nothing and returns the input frame unchanged. -/
theorem c10_blur_failure_returns_frame (gauss : GaussFn) (image : Frame)
    (landmarks : List Landmark) (k : ℤ)
    (hfail : ∀ rh rw rc f, gauss k rh rw rc f = none) :
    blur_hand_region gauss image landmarks k = image := by
  match landmarks with
  | [] => rfl
  | p :: ps =>
    simp only [blur_hand_region]
    split
    · rw [hfail]
    · rfl

/-- Claim C10, witness: an always-failing blur with the even kernel size 4
leaves the frame untouched. -/
theorem c10_witness :
    blur_hand_region gaussFail wimg (wpt :: []) 4 = wimg :=
  c10_blur_failure_returns_frame gaussFail wimg (wpt :: []) 4
    (fun _ _ _ _ => rfl)
